import Mathlib

/-!
Verification development for the `pyzenhub` HTTP client library.

The Python sources are shallowly embedded: JSON values become an inductive
type, Python exceptions become an error inductive returned through `Except`,
and each function under scrutiny (`zenhub/utils.py`, `zenhub/core/_rate.py`,
`zenhub/core/_release_reports.py`, `zenhub/core/_dependencies.py`,
`zenhub/core/_release_report_issues.py`, `zenhub/models.py`) is translated
into an executable Lean definition.  Behaviour of the Python standard
library (`int()`, `datetime`, `json`) and of pydantic v1 validation is
modelled explicitly where the embedded code calls into it; each such model
carries a doc comment saying what it models.
-/

namespace Zenhub

/-- Decoded JSON values, as produced by `requests.Response.json()`.
Numbers are modelled as integers (the payloads of this API carry only
integral numbers); objects are association lists in insertion order,
mirroring Python 3.7+ `dict` ordering. -/
inductive Json where
  | null
  | bool (b : Bool)
  | num (n : Int)
  | str (s : String)
  | arr (elems : List Json)
  | obj (fields : List (String × Json))
deriving Repr, Inhabited

/-- Association-list lookup, modelling `dict.get(key)` on a decoded JSON
object (first binding wins; `json.loads` never produces duplicate keys). -/
def Json.lookup : List (String × Json) → String → Option Json
  | [], _ => none
  | (k, v) :: rest, key => if k = key then some v else Json.lookup rest key

/-- Top-level keys of a JSON value: `data.keys()` for objects, `[]`
otherwise (callers only apply it to objects). -/
def Json.keysOf : Json → List String
  | .obj kvs => kvs.map Prod.fst
  | _ => []

/-- Python `x == {}`: true exactly for an empty dict; any non-dict value
(or non-empty dict) compares unequal to `{}`. -/
def Json.isEmptyDict : Json → Bool
  | .obj [] => true
  | _ => false

/-- Python exceptions raised by the embedded code.  The first four
constructors are the `zenhub.exceptions` taxonomy (`ZenhubError` and its
three subclasses in `zenhub/exceptions.py`); the rest are built-in Python
exceptions (`ValueError`, `TypeError`, `AttributeError`) and pydantic's
`ValidationError`. -/
inductive PyError where
  | invalidToken (msg : String)
  | apiLimit (msg : String)
  | notFound (msg : String)
  | zenhub (msg : Json)
  | valueError (msg : String)
  | typeError (msg : String)
  | attributeError (msg : String)
  | validationError (msg : String)
deriving Repr

/-- Membership in the `ZenhubError` taxonomy: models
`isinstance(e, ZenhubError)`, true for `ZenhubError` itself and its three
subclasses declared in `zenhub/exceptions.py`. -/
def PyError.isZenhubError : PyError → Bool
  | .invalidToken _ => true
  | .apiLimit _ => true
  | .notFound _ => true
  | .zenhub _ => true
  | _ => false

/-- Embedding of `parse_response_contents` (`zenhub/utils.py`, lines 37-59).
The response is a status code plus the result of `response.json()`:
`some j` when the body decoded to `j`, `none` when decoding raised
(empty or invalid JSON), in which case `contents = {}`.  Statuses 200/204
return the contents; 401/403/404 raise the dedicated errors; any other
status evaluates `contents.get("message", "Unknown error!")`, which on a
non-dict value raises `AttributeError` (Python: the decoded value has no
`get` method). -/
def parse_response_contents (status : Nat) (body : Option Json) :
    Except PyError Json :=
  let contents := body.getD (Json.obj [])
  if status = 200 ∨ status = 204 then
    .ok contents
  else if status = 401 then
    .error (.invalidToken "Invalid token!")
  else if status = 403 then
    .error (.apiLimit "Reached request limit to the API. See API Limits.")
  else if status = 404 then
    .error (.notFound "Not found!")
  else
    match contents with
    | .obj kvs =>
        .error (.zenhub ((Json.lookup kvs "message").getD
          (.str "Unknown error!")))
    | _ => .error (.attributeError "object has no attribute get")

/-- Whitespace characters stripped by Python's `int(str)` conversion. -/
def isPySpace (c : Char) : Bool :=
  c = ' ' ∨ c = '\t' ∨ c = '\n' ∨ c = '\r'

/-- Accumulate a run of decimal digits; fails on any non-digit. -/
def digitsNat : Nat → List Char → Option Nat
  | acc, [] => some acc
  | acc, c :: cs =>
    if c.isDigit then digitsNat (acc * 10 + (c.toNat - 48)) cs else none

/-- Modelled from the Python built-in `int(s)` on strings: strip
surrounding whitespace, allow one optional sign, then one or more decimal
digits; anything else raises `ValueError` (returned here as `none`).
Underscore digit grouping and non-ASCII digits accepted by CPython are
omitted; no claim depends on them. -/
def pyIntOfString (s : String) : Option Int :=
  let cs := ((s.data.dropWhile isPySpace).reverse.dropWhile isPySpace).reverse
  match cs with
  | '+' :: rest =>
    match rest with
    | [] => none
    | _ => (digitsNat 0 rest).map Int.ofNat
  | '-' :: rest =>
    match rest with
    | [] => none
    | _ => (digitsNat 0 rest).map (fun n => -(n : Int))
  | [] => none
  | rest => (digitsNat 0 rest).map Int.ofNat

/-- Embedding of the header-to-int step of `rate_limit`
(`zenhub/core/_rate.py`, lines 62-79): `headers.get(name, -1)` followed by
`int(...)` under `try/except`.  A missing header yields the default `-1`
(and `int(-1) = -1`); a present header is a string fed to `int`, with any
parse failure replaced by `-1`. -/
def headerInt (h : Option String) : Int :=
  match h with
  | none => -1
  | some s => (pyIntOfString s).getD (-1)

/-- Gregorian leap-year test, as in the proleptic calendar used by
`datetime`. -/
def isLeap (y : Nat) : Bool :=
  (y % 4 = 0 ∧ y % 100 ≠ 0) ∨ y % 400 = 0

/-- Length of a month in the proleptic Gregorian calendar (0 for an
invalid month number). -/
def daysInMonth (y mo : Nat) : Nat :=
  match mo with
  | 1 => 31
  | 2 => if isLeap y then 29 else 28
  | 3 => 31
  | 4 => 30
  | 5 => 31
  | 6 => 30
  | 7 => 31
  | 8 => 31
  | 9 => 30
  | 10 => 31
  | 11 => 30
  | 12 => 31
  | _ => 0

/-- Days from the Unix epoch to the civil date `(y, mo, d)` in the
proleptic Gregorian calendar (valid for `1 ≤ y`, `1 ≤ mo ≤ 12`); the
standard era/year-of-era computation underlying `datetime.toordinal`. -/
def daysFromCivil (y mo d : Nat) : Int :=
  let yAdj := if mo ≤ 2 then y - 1 else y
  let era := yAdj / 400
  let yoe := yAdj % 400
  let mp := if mo ≤ 2 then mo + 9 else mo - 3
  let doy := (153 * mp + 2) / 5 + (d - 1)
  let doe := yoe * 365 + yoe / 4 - yoe / 100 + doy
  (era * 146097 + doe : Int) - 719468

/-- Seconds from the Unix epoch to the civil instant
`(y, mo, d, hh, mm, ss)` taken as UTC. -/
def epochOfCivil (y mo d hh mm ss : Nat) : Int :=
  daysFromCivil y mo d * 86400 + (hh * 3600 + mm * 60 + ss)

/-- Modelled from the Python stdlib:
`datetime.datetime.fromtimestamp(ts, tz=datetime.timezone.utc)` on an
integral timestamp.  Within `datetime`'s representable range
(years 1-9999) it denotes the UTC instant `ts` seconds after the epoch;
outside it raises `ValueError`/`OverflowError`. -/
def fromtimestampUtc (ts : Int) : Except PyError Int :=
  if -62135596800 ≤ ts ∧ ts ≤ 253402300799 then .ok ts
  else .error (.valueError "year is out of range")

/-- ASCII lower-casing used for the case-insensitive name matching of
`strptime`. -/
def asciiLower (c : Char) : Char :=
  if 'A' ≤ c ∧ c ≤ 'Z' then Char.ofNat (c.toNat + 32) else c

/-- Consume `pat` case-insensitively from the front of `cs`. -/
def stripCI : List Char → List Char → Option (List Char)
  | [], cs => some cs
  | _ :: _, [] => none
  | p :: ps, c :: cs =>
    if asciiLower c = asciiLower p then stripCI ps cs else none

/-- Try each `(tag, name)` pair in order, consuming the first name that
matches case-insensitively. -/
def matchFirst : List (Nat × String) → List Char → Option (Nat × List Char)
  | [], _ => none
  | (i, nm) :: rest, cs =>
    match stripCI nm.data cs with
    | some r => some (i, r)
    | none => matchFirst rest cs

/-- Abbreviated weekday names matched by the `%a` directive (C locale). -/
def weekdayAbbrevs : List (Nat × String) :=
  [(0, "Mon"), (1, "Tue"), (2, "Wed"), (3, "Thu"), (4, "Fri"),
   (5, "Sat"), (6, "Sun")]

/-- Full month names matched by the `%B` directive (C locale), tagged with
their month numbers. -/
def monthNames : List (Nat × String) :=
  [(1, "January"), (2, "February"), (3, "March"), (4, "April"),
   (5, "May"), (6, "June"), (7, "July"), (8, "August"),
   (9, "September"), (10, "October"), (11, "November"), (12, "December")]

/-- Consume one expected literal character. -/
def expectChar (c : Char) : List Char → Option (List Char)
  | x :: rest => if x = c then some rest else none
  | [] => none

/-- Greedily take up to `fuel` decimal digits, returning the count taken,
their value and the rest. -/
def takeDigitsAux : Nat → Nat → Nat → List Char → Nat × Nat × List Char
  | _, acc, cnt, [] => (cnt, acc, [])
  | 0, acc, cnt, cs => (cnt, acc, cs)
  | fuel + 1, acc, cnt, c :: cs =>
    if c.isDigit then takeDigitsAux fuel (acc * 10 + (c.toNat - 48)) (cnt + 1) cs
    else (cnt, acc, c :: cs)

/-- Take between `lo` and `hi` decimal digits (greedy), as the regexes
built by `_strptime` do for numeric directives. -/
def takeDigits (lo hi : Nat) (cs : List Char) : Option (Nat × List Char) :=
  let (cnt, v, rest) := takeDigitsAux hi 0 0 cs
  if lo ≤ cnt then some (v, rest) else none

/-- Timezone names accepted by the `%Z` directive here: `GMT` or `UTC`
(case-insensitive), consuming the whole remainder.  CPython additionally
accepts the host's local timezone names; that locale-dependent extension
is omitted. -/
def tzNameOk (cs : List Char) : Bool :=
  stripCI "GMT".data cs = some [] ∨ stripCI "UTC".data cs = some []

/-- Parse the fixed server-date format
`"%a, %d %B %Y %H:%M:%S %Z"` (e.g. `Mon, 30 May 2022 22:43:37 GMT`),
returning the raw numeric fields. -/
def parseServerDate (cs : List Char) :
    Option (Nat × Nat × Nat × Nat × Nat × Nat) := do
  let (_, r1) ← matchFirst weekdayAbbrevs cs
  let r2 ← expectChar ',' r1
  let r3 ← expectChar ' ' r2
  let (d, r4) ← takeDigits 1 2 r3
  let r5 ← expectChar ' ' r4
  let (mo, r6) ← matchFirst monthNames r5
  let r7 ← expectChar ' ' r6
  let (y, r8) ← takeDigits 1 4 r7
  let r9 ← expectChar ' ' r8
  let (hh, r10) ← takeDigits 1 2 r9
  let r11 ← expectChar ':' r10
  let (mm, r12) ← takeDigits 1 2 r11
  let r13 ← expectChar ':' r12
  let (ss, r14) ← takeDigits 1 2 r13
  let r15 ← expectChar ' ' r14
  if tzNameOk r15 then some (y, mo, d, hh, mm, ss) else none

/-- Modelled from the Python stdlib:
`datetime.datetime.strptime(s, '%a, %d %B %Y %H:%M:%S %Z')` followed by
`.replace(tzinfo=datetime.timezone.utc)` as done in `rate_limit`
(`zenhub/core/_rate.py`, lines 85-90), reduced to the epoch second of the
resulting UTC instant.  A format mismatch or an out-of-range component
raises `ValueError`. -/
def strptimeServerDate (s : String) : Except PyError Int :=
  match parseServerDate s.data with
  | none => .error (.valueError "time data does not match format")
  | some (y, mo, d, hh, mm, ss) =>
    if 1 ≤ y ∧ 1 ≤ d ∧ d ≤ daysInMonth y mo ∧ hh ≤ 23 ∧ mm ≤ 59 ∧ ss ≤ 59
    then .ok (epochOfCivil y mo d hh mm ss)
    else .error (.valueError "time data out of range")

/-- The four response headers consulted by `rate_limit`: `none` models a
header absent from the response. -/
structure RateHeaders where
  used : Option String
  limit : Option String
  reset : Option String
  date : Option String

/-- Embedding of the pydantic `RateLimit` model (`zenhub/models.py`,
lines 147-150). -/
structure RateLimit where
  limit : Int
  used : Int
  reset : Int
deriving Repr, DecidableEq

/-- Embedding of `rate_limit` (`zenhub/core/_rate.py`, lines 35-98),
starting from the response headers.  Each count header is fetched with
default `-1` and pushed through `int` under `try/except`; then, if the
parsed reset time differs from `-1` or the `Date` header is present (a
string never equals the integer default `-1`), the code builds
`datetime.fromtimestamp(limit_reset_time, utc)` and
`strptime(server_date_string, ...)` — the latter raising `TypeError` when
the `Date` header was absent (its value is the integer `-1`, not a
string) — and returns `(date_reset - date_machine).seconds`, the
floor-modulo by 86400 of the signed difference, as `timedelta` normalizes
its seconds component into `[0, 86400)`. -/
def rate_limit (h : RateHeaders) : Except PyError RateLimit :=
  let limit_used := headerInt h.used
  let limit_allowed := headerInt h.limit
  let limit_reset_time := headerInt h.reset
  if limit_reset_time ≠ -1 ∨ h.date.isSome then
    match fromtimestampUtc limit_reset_time with
    | .error e => .error e
    | .ok r =>
      match h.date with
      | none => .error (.typeError "strptime() argument must be str")
      | some s =>
        match strptimeServerDate s with
        | .error e => .error e
        | .ok m =>
          .ok ⟨limit_allowed, limit_used, (r - m) % 86400⟩
  else
    .ok ⟨limit_allowed, limit_used, -1⟩

/-- Modelled from the Python stdlib: a `datetime.datetime` value — the
civil fields plus an optional fixed UTC offset in minutes (`none` for a
naive datetime, `some off` for one carrying
`datetime.timezone(timedelta(minutes=off))`).  Sub-minute UTC offsets,
allowed but never used by this code base, are omitted. -/
structure PyDatetime where
  year : Nat
  month : Nat
  day : Nat
  hour : Nat
  minute : Nat
  second : Nat
  microsecond : Nat
  tzoffset : Option Int
deriving Repr, DecidableEq

/-- Validity of the fields, as enforced by the `datetime` constructor. -/
def PyDatetime.valid (t : PyDatetime) : Prop :=
  1 ≤ t.year ∧ t.year ≤ 9999 ∧ 1 ≤ t.month ∧ t.month ≤ 12 ∧
    1 ≤ t.day ∧ t.day ≤ daysInMonth t.year t.month ∧ t.hour ≤ 23 ∧
    t.minute ≤ 59 ∧ t.second ≤ 59 ∧ t.microsecond ≤ 999999 ∧
    (∀ off, t.tzoffset = some off → -1439 ≤ off ∧ off ≤ 1439)

/-- Lexicographic comparison of equal-length numeric component lists, the
order CPython uses for two naive datetimes. -/
def compareLex : List Nat → List Nat → Ordering
  | [], [] => .eq
  | [], _ :: _ => .lt
  | _ :: _, [] => .gt
  | a :: as, b :: bs =>
    if a < b then .lt else if b < a then .gt else compareLex as bs

/-- Microseconds from the epoch to the civil fields of `t`, ignoring its
UTC offset. -/
def timeKeyMicros (t : PyDatetime) : Int :=
  (daysFromCivil t.year t.month t.day * 86400 +
    (t.hour * 3600 + t.minute * 60 + t.second)) * 1000000 + t.microsecond

/-- The component lists compared for naive datetimes. -/
def PyDatetime.lexList (t : PyDatetime) : List Nat :=
  [t.year, t.month, t.day, t.hour, t.minute, t.second, t.microsecond]

/-- Modelled from the Python stdlib: comparison of two `datetime` values.
Two naive datetimes compare lexicographically by components, two aware
ones chronologically after subtracting their UTC offsets, and a
naive/aware mix raises `TypeError`. -/
def pyCompare (a b : PyDatetime) : Except PyError Ordering :=
  match a.tzoffset, b.tzoffset with
  | none, none => .ok (compareLex a.lexList b.lexList)
  | some oa, some ob =>
    .ok (compare (timeKeyMicros a - oa * 60000000)
      (timeKeyMicros b - ob * 60000000))
  | _, _ =>
    .error (.typeError "cannot compare offset-naive and offset-aware datetimes")

/-- Embedding of `check_dates` (`zenhub/utils.py`, lines 28-34): raise
`ValueError` when `start_date > desired_end_date`, else return `True`. -/
def check_dates (start_date desired_end_date : PyDatetime) :
    Except PyError Bool :=
  match pyCompare start_date desired_end_date with
  | .error e => .error e
  | .ok o =>
    if o = .gt then .error (.valueError "Start date must be before end date.")
    else .ok true

/-- The ASCII digit character for `n % 10`. -/
def digitChar (n : Nat) : Char := Char.ofNat (48 + n % 10)

/-- Two-digit zero-padded decimal rendering (`%02d`). -/
def pad2 (n : Nat) : List Char := [digitChar (n / 10), digitChar n]

/-- Three-digit zero-padded decimal rendering (`%03d`). -/
def pad3 (n : Nat) : List Char :=
  [digitChar (n / 100), digitChar (n / 10), digitChar n]

/-- Four-digit zero-padded decimal rendering (`%04d`). -/
def pad4 (n : Nat) : List Char :=
  [digitChar (n / 1000), digitChar (n / 100), digitChar (n / 10), digitChar n]

/-- UTC-offset suffix emitted by `datetime.isoformat`: empty for a naive
value, else a sign, two hour digits, `:` and two minute digits. -/
def offsetChars : Option Int → List Char
  | none => []
  | some off =>
    (if off < 0 then '-' else '+') ::
      (pad2 (off.natAbs / 60) ++ ':' :: pad2 (off.natAbs % 60))

/-- Modelled from the Python stdlib:
`datetime.isoformat(timespec='milliseconds')` — the civil fields in
`YYYY-MM-DDTHH:MM:SS.fff` form (microseconds truncated to milliseconds),
followed by the UTC-offset suffix when the value is aware. -/
def isoChars (t : PyDatetime) : List Char :=
  pad4 t.year ++ '-' :: (pad2 t.month ++ '-' :: (pad2 t.day ++ 'T' ::
    (pad2 t.hour ++ ':' :: (pad2 t.minute ++ ':' :: (pad2 t.second ++ '.' ::
      (pad3 (t.microsecond / 1000) ++ offsetChars t.tzoffset))))))

/-- Embedding of `date_to_string` (`zenhub/utils.py`, lines 15-17):
`date.isoformat(timespec='milliseconds') + "Z"`. -/
def date_to_string (t : PyDatetime) : String := ⟨isoChars t ++ ['Z']⟩

/-- Numeric value of one decimal digit character. -/
def digitVal (c : Char) : Option Nat :=
  if c.isDigit then some (c.toNat - 48) else none

/-- Parse two decimal digit characters. -/
def parse2c (a b : Char) : Option Nat := do
  let x ← digitVal a
  let y ← digitVal b
  pure (10 * x + y)

/-- Parse three decimal digit characters. -/
def parse3c (a b c : Char) : Option Nat := do
  let x ← digitVal a
  let y ← digitVal b
  let z ← digitVal c
  pure (100 * x + 10 * y + z)

/-- Parse four decimal digit characters. -/
def parse4c (a b c d : Char) : Option Nat := do
  let x ← digitVal a
  let y ← digitVal b
  let z ← digitVal c
  let w ← digitVal d
  pure (1000 * x + 100 * y + 10 * z + w)

/-- Parse the optional `±HH:MM` UTC-offset tail of an isoformat string
(empty input means a naive value). -/
def parseTzOffset : List Char → Option (Option Int)
  | [] => some none
  | sign :: o1 :: o2 :: col :: o3 :: o4 :: [] =>
    if col = ':' ∧ (sign = '+' ∨ sign = '-') then do
      let oh ← parse2c o1 o2
      let om ← parse2c o3 o4
      if oh ≤ 23 ∧ om ≤ 59 then
        some (some (if sign = '-' then -(oh * 60 + om : Int)
          else (oh * 60 + om : Int)))
      else none
    else none
  | _ => none

/-- Modelled from the Python stdlib: `datetime.fromisoformat`, restricted
to the grammar emitted by `isoformat(timespec='milliseconds')` — a
`YYYY-MM-DD` date, optionally followed by a separator character, an
`HH:MM:SS.fff` time and a `±HH:MM` offset — with the constructor's range
validation.  The shorter time forms CPython also accepts are never
produced by the encoder under study and are omitted here. -/
def fromisoChars (cs : List Char) : Option PyDatetime :=
  match cs with
  | y1 :: y2 :: y3 :: y4 :: dash1 :: a1 :: a2 :: dash2 :: b1 :: b2 :: rest =>
    if dash1 = '-' ∧ dash2 = '-' then do
      let y ← parse4c y1 y2 y3 y4
      let mo ← parse2c a1 a2
      let d ← parse2c b1 b2
      let (hh, mm, ss, us, off) ←
        (match rest with
        | [] => some (0, 0, 0, 0, none)
        | _sep :: t1 :: t2 :: col1 :: m1 :: m2 :: col2 :: s1 :: s2 ::
            dot :: f1 :: f2 :: f3 :: rest2 =>
          if col1 = ':' ∧ col2 = ':' ∧ dot = '.' then do
            let hh ← parse2c t1 t2
            let mm ← parse2c m1 m2
            let ss ← parse2c s1 s2
            let f ← parse3c f1 f2 f3
            let off ← parseTzOffset rest2
            some (hh, mm, ss, f * 1000, off)
          else none
        | _ => none)
      if 1 ≤ y ∧ 1 ≤ mo ∧ mo ≤ 12 ∧ 1 ≤ d ∧ d ≤ daysInMonth y mo ∧
          hh ≤ 23 ∧ mm ≤ 59 ∧ ss ≤ 59 then
        some ⟨y, mo, d, hh, mm, ss, us, off⟩
      else none
    else none
  | _ => none

/-- Embedding of `string_to_date` (`zenhub/utils.py`, lines 20-25): strip
one trailing `Z` if present, then `datetime.fromisoformat`. -/
def string_to_date (s : String) : Except PyError PyDatetime :=
  let cs := s.data
  let cs2 := if cs.getLast? = some 'Z' then cs.dropLast else cs
  match fromisoChars cs2 with
  | some t => .ok t
  | none => .error (.valueError "Invalid isoformat string")

/-- Offset-and-terminator tail accepted by the spec format: either a bare
final `Z`, or a `±HH:MM` offset followed by the final `Z`. -/
def specOffsetZ : List Char → Bool
  | [z] => z == 'Z'
  | sign :: o1 :: o2 :: col :: o3 :: o4 :: [z] =>
    (sign == '+' || sign == '-') && o1.isDigit && o2.isDigit &&
      (col == ':') && o3.isDigit && o4.isDigit && (z == 'Z')
  | _ => false

/-- Modelled from the spec: checker for the demanded output shape — an
ISO-8601 date-time with exactly millisecond precision (three fractional
digits), an optional numeric UTC offset, and a literal trailing `Z`. -/
def specIso8601MsZ (cs : List Char) : Bool :=
  match cs with
  | y1 :: y2 :: y3 :: y4 :: d1 :: a1 :: a2 :: d2 :: b1 :: b2 :: sep ::
      h1 :: h2 :: c1 :: m1 :: m2 :: c2 :: s1 :: s2 :: dot ::
      f1 :: f2 :: f3 :: rest =>
    y1.isDigit && y2.isDigit && y3.isDigit && y4.isDigit &&
      (d1 == '-') && a1.isDigit && a2.isDigit && (d2 == '-') &&
      b1.isDigit && b2.isDigit && (sep == 'T') &&
      h1.isDigit && h2.isDigit && (c1 == ':') && m1.isDigit && m2.isDigit &&
      (c2 == ':') && s1.isDigit && s2.isDigit && (dot == '.') &&
      f1.isDigit && f2.isDigit && f3.isDigit && specOffsetZ rest
  | _ => false

/-- One HTTP request as issued by the `BaseMixin` helpers
(`zenhub/core/base.py`): verb, path and JSON body. -/
structure HttpCall where
  method : String
  url : String
  body : Json
deriving Repr

/-- A server behaviour: for each request, the HTTP status code and the
decoded body (`none` when the body is empty or not valid JSON). -/
def Server : Type := HttpCall → Nat × Option Json

/-- Embedding of the `BaseMixin._get/_post/_patch/_delete` helpers
(`zenhub/core/base.py`): issue the request and classify the response. -/
def httpRequest (server : Server) (call : HttpCall) : Except PyError Json :=
  parse_response_contents (server call).1 (server call).2

/-- Embedding of `remove_dependency` (`zenhub/core/_dependencies.py`,
lines 125-168): one DELETE request, returning `True` exactly when the
parsed contents equal `{}`. -/
def remove_dependency (server : Server)
    (blocking_repo_id blocking_issue_number : Int)
    (blocked_repo_id blocked_issue_number : Int) : Except PyError Bool :=
  let url := "/p1/dependencies"
  let body := Json.obj
    [("blocking", .obj [("repo_id", .num blocking_repo_id),
                        ("issue_number", .num blocking_issue_number)]),
     ("blocked", .obj [("repo_id", .num blocked_repo_id),
                       ("issue_number", .num blocked_issue_number)])]
  match httpRequest server ⟨"DELETE", url, body⟩ with
  | .ok contents => .ok (contents.isEmptyDict)
  | .error e => .error e

/-- Embedding of `add_repo_to_release_report`
(`zenhub/core/_release_reports.py`, lines 317-342): one POST request with
the default empty body, returning `True` exactly when the parsed contents
equal `{}`. -/
def add_repo_to_release_report (server : Server) (release_id : String)
    (repo_id : Int) : Except PyError Bool :=
  let url := s!"/p1/reports/release/{release_id}/repository/{repo_id}"
  match httpRequest server ⟨"POST", url, .obj []⟩ with
  | .ok contents => .ok (contents.isEmptyDict)
  | .error e => .error e

/-- Embedding of `remove_repo_from_release_report`
(`zenhub/core/_release_reports.py`, lines 344-371): one DELETE request with
the default empty body, returning `True` exactly when the parsed contents
equal `{}`. -/
def remove_repo_from_release_report (server : Server) (release_id : String)
    (repo_id : Int) : Except PyError Bool :=
  let url := s!"/p1/reports/release/{release_id}/repository/{repo_id}"
  match httpRequest server ⟨"DELETE", url, .obj []⟩ with
  | .ok contents => .ok (contents.isEmptyDict)
  | .error e => .error e

/-- Modelled from pydantic v1: validation of an `int` field — accepts an
integer, a bool (`True → 1`), or a string parseable by `int()`; anything
else is a field error.  (Float truncation is omitted: the embedded JSON
numbers are integral.) -/
def validateInt : Json → Except String Int
  | .num n => .ok n
  | .bool b => .ok (if b then 1 else 0)
  | .str s =>
    match pyIntOfString s with
    | some n => .ok n
    | none => .error "value is not a valid integer"
  | _ => .error "value is not a valid integer"

/-- Modelled from pydantic v1: validation of a `str` field — accepts a
string, or coerces a number or bool with `str()`. -/
def validateStr : Json → Except String String
  | .str s => .ok s
  | .num n => .ok (toString n)
  | .bool b => .ok (if b then "True" else "False")
  | _ => .error "str type expected"

/-- Modelled from pydantic v1: a required field — absence is a
`field required` error, presence runs the field validator.  (pydantic
collects all field errors into one `ValidationError`; this model keeps
the first, which is still a `ValidationError`.) -/
def requiredField (kvs : List (String × Json)) (k : String)
    (f : Json → Except String α) : Except String α :=
  match Json.lookup kvs k with
  | none => .error (k ++ ": field required")
  | some v => f v

/-- Modelled from pydantic v1: an `Optional[str]` field — missing or
`None` becomes `none`, anything else is validated as `str`. -/
def optionalStrField (kvs : List (String × Json)) (k : String) :
    Except String (Option String) :=
  match Json.lookup kvs k with
  | none => .ok none
  | some .null => .ok none
  | some v => (validateStr v).map some

/-- Validate every element of a JSON list as an `int` (one invalid
element fails the whole field). -/
def validateIntList : List Json → Except String (List Int)
  | [] => .ok []
  | v :: rest => do
    let n ← validateInt v
    let ns ← validateIntList rest
    .ok (n :: ns)

/-- Modelled from pydantic v1: an `Optional[List[int]]` field. -/
def optionalIntListField (kvs : List (String × Json)) (k : String) :
    Except String (Option (List Int)) :=
  match Json.lookup kvs k with
  | none => .ok none
  | some .null => .ok none
  | some (.arr es) => (validateIntList es).map some
  | some _ => .error "value is not a valid list"

/-- Embedding of the pydantic `Issue` model (`zenhub/models.py`,
lines 61-63). -/
structure Issue where
  repo_id : Int
  issue_number : Int
deriving Repr, DecidableEq

/-- Validation of an `Issue` submodel value: a dict with required integer
`repo_id` and `issue_number` fields. -/
def Issue.parse : Json → Except String Issue
  | .obj kvs => do
    let r ← requiredField kvs "repo_id" validateInt
    let n ← requiredField kvs "issue_number" validateInt
    .ok ⟨r, n⟩
  | _ => .error "value is not a valid dict"

/-- Dict form of an `Issue`, as produced by pydantic `.dict()` (fields in
declaration order). -/
def Issue.toJson (i : Issue) : Json :=
  .obj [("repo_id", .num i.repo_id), ("issue_number", .num i.issue_number)]

/-- Embedding of the pydantic `Dependency` model (`zenhub/models.py`,
lines 88-90). -/
structure Dependency where
  blocking : Issue
  blocked : Issue
deriving Repr, DecidableEq

/-- Modelled from pydantic v1: `Dependency.parse_obj` — the payload must
be a dict with well-formed required `blocking` and `blocked` issue
references; any failure raises `ValidationError`. -/
def Dependency.parse_obj (j : Json) : Except PyError Dependency :=
  match j with
  | .obj kvs =>
    match (do
      let bg ← requiredField kvs "blocking" Issue.parse
      let bd ← requiredField kvs "blocked" Issue.parse
      .ok (Dependency.mk bg bd) : Except String Dependency) with
    | .ok d => .ok d
    | .error m => .error (.validationError m)
  | _ => .error (.validationError "value is not a valid dict")

/-- Embedding of the pydantic `AddRemoveIssue` model (`zenhub/models.py`,
lines 71-73). -/
structure AddRemoveIssue where
  added : List Issue
  removed : List Issue
deriving Repr, DecidableEq

/-- Validate every element of a JSON list as an `Issue`. -/
def validateIssueList : List Json → Except String (List Issue)
  | [] => .ok []
  | v :: rest => do
    let i ← Issue.parse v
    let is ← validateIssueList rest
    .ok (i :: is)

/-- Modelled from pydantic v1: `AddRemoveIssue.parse_obj` — a dict with
required `added` and `removed` lists of issue references. -/
def AddRemoveIssue.parse_obj (j : Json) : Except PyError AddRemoveIssue :=
  match j with
  | .obj kvs =>
    match (do
      let ad ← requiredField kvs "added" (fun v =>
        match v with
        | .arr es => validateIssueList es
        | _ => .error "value is not a valid list")
      let rm ← requiredField kvs "removed" (fun v =>
        match v with
        | .arr es => validateIssueList es
        | _ => .error "value is not a valid list")
      .ok (AddRemoveIssue.mk ad rm) : Except String AddRemoveIssue) with
    | .ok d => .ok d
    | .error m => .error (.validationError m)
  | _ => .error (.validationError "value is not a valid dict")

/-- Dict form of an `AddRemoveIssue`, fields in declaration order. -/
def AddRemoveIssue.toPairs (m : AddRemoveIssue) : List (String × Json) :=
  [("added", .arr (m.added.map Issue.toJson)),
   ("removed", .arr (m.removed.map Issue.toJson))]

/-- Modelled from pydantic v1: `model.dict(include=keys)` — the model's
fields, in declaration order, restricted to the named keys. -/
def pydanticDictInclude (pairs : List (String × Json)) (keys : List String) :
    List (String × Json) :=
  pairs.filter (fun kv => keys.contains kv.1)

/-- Embedding of `add_or_remove_issues_from_release_report`
(`zenhub/core/_release_report_issues.py`, lines 48-97): one PATCH
request, response validated as `AddRemoveIssue`, and in dict-output mode
projected onto the keys present in the raw response. -/
def add_or_remove_issues_from_release_report (server : Server)
    (release_id : String) (add_issues remove_issues : List Issue)
    (output_models : Bool) : Except PyError (AddRemoveIssue ⊕ Json) :=
  let url := s!"/p1/reports/release/{release_id}/issues"
  let body := Json.obj
    [("add_issues", .arr (add_issues.map Issue.toJson)),
     ("remove_issues", .arr (remove_issues.map Issue.toJson))]
  match httpRequest server ⟨"PATCH", url, body⟩ with
  | .error e => .error e
  | .ok data =>
    match AddRemoveIssue.parse_obj data with
    | .error e => .error e
    | .ok model =>
      .ok (if output_models then .inl model
        else .inr (.obj (pydanticDictInclude model.toPairs data.keysOf)))

/-- Embedding of the pydantic `ReleaseReport` model (`zenhub/models.py`,
lines 76-85); the date fields are `ISO8601DateString = str`, so they stay
plain strings. -/
structure ReleaseReport where
  release_id : String
  title : String
  description : String
  start_date : String
  desired_end_date : String
  created_at : String
  closed_at : Option String
  state : String
  repositories : Option (List Int)
deriving Repr, DecidableEq

/-- Modelled from pydantic v1: `ReleaseReport.parse_obj`. -/
def ReleaseReport.parse_obj (j : Json) : Except PyError ReleaseReport :=
  match j with
  | .obj kvs =>
    match (do
      let rid ← requiredField kvs "release_id" validateStr
      let ti ← requiredField kvs "title" validateStr
      let de ← requiredField kvs "description" validateStr
      let sd ← requiredField kvs "start_date" validateStr
      let ed ← requiredField kvs "desired_end_date" validateStr
      let ca ← requiredField kvs "created_at" validateStr
      let cl ← optionalStrField kvs "closed_at"
      let st ← requiredField kvs "state" validateStr
      let reps ← optionalIntListField kvs "repositories"
      .ok (ReleaseReport.mk rid ti de sd ed ca cl st reps) :
        Except String ReleaseReport) with
    | .ok r => .ok r
    | .error m => .error (.validationError m)
  | _ => .error (.validationError "value is not a valid dict")

/-- Dict form of a `ReleaseReport`, fields in declaration order, `None`
rendered as JSON null. -/
def ReleaseReport.toPairs (r : ReleaseReport) : List (String × Json) :=
  [("release_id", .str r.release_id), ("title", .str r.title),
   ("description", .str r.description), ("start_date", .str r.start_date),
   ("desired_end_date", .str r.desired_end_date),
   ("created_at", .str r.created_at),
   ("closed_at", match r.closed_at with | none => .null | some s => .str s),
   ("state", .str r.state),
   ("repositories",
     match r.repositories with
     | none => .null
     | some l => .arr (l.map Json.num))]

/-- Shared tail of the release-report endpoints: classify the response,
validate it as a `ReleaseReport`, and return the model or its
key-projected dict form. -/
def releaseReportRequest (server : Server) (call : HttpCall)
    (output_models : Bool) : Except PyError (ReleaseReport ⊕ Json) :=
  match httpRequest server call with
  | .error e => .error e
  | .ok data =>
    match ReleaseReport.parse_obj data with
    | .error e => .error e
    | .ok model =>
      .ok (if output_models then .inl model
        else .inr (.obj (pydanticDictInclude model.toPairs data.keysOf)))

/-- Embedding of `create_release_report`
(`zenhub/core/_release_reports.py`, lines 12-94): `check_dates` runs
before the request body is built, so a date-order violation raises
`ValueError` with no HTTP call issued (the returned list is the trace of
issued calls).  A non-empty `description` and a non-empty `repositories`
iterable are appended to the body, as in the source's truthiness tests. -/
def create_release_report (server : Server) (repo_id : Int) (title : String)
    (start_date desired_end_date : PyDatetime) (description : String)
    (repositories : List Int) (output_models : Bool) :
    Except PyError (ReleaseReport ⊕ Json) × List HttpCall :=
  match check_dates start_date desired_end_date with
  | .error e => (.error e, [])
  | .ok _ =>
    let url := s!"/p1/repositories/{repo_id}/reports/release"
    let body := Json.obj
      ([("title", .str title),
        ("start_date", .str (date_to_string start_date)),
        ("desired_end_date", .str (date_to_string desired_end_date))] ++
       (if description ≠ "" then [("description", .str description)]
        else []) ++
       (if repositories ≠ [] then
          [("repositories", .arr (repositories.map Json.num))]
        else []))
    (releaseReportRequest server ⟨"POST", url, body⟩ output_models,
      [⟨"POST", url, body⟩])

/-- Embedding of `edit_release_report`
(`zenhub/core/_release_reports.py`, lines 230-315): `check_dates` runs
first; then a non-`None` `state` outside {open, closed} raises
`ValueError` — in both failure cases before any HTTP call is issued. -/
def edit_release_report (server : Server) (release_id : String)
    (title : String) (start_date desired_end_date : PyDatetime)
    (description : String) (state : Option String) (output_models : Bool) :
    Except PyError (ReleaseReport ⊕ Json) × List HttpCall :=
  match check_dates start_date desired_end_date with
  | .error e => (.error e, [])
  | .ok _ =>
    let url := s!"/p1/reports/release/{release_id}"
    let body0 := [("title", .str title), ("description", .str description),
      ("start_date", .str (date_to_string start_date)),
      ("desired_end_date", .str (date_to_string desired_end_date))]
    match state with
    | some s =>
      if s = "open" ∨ s = "closed" then
        (releaseReportRequest server
          ⟨"PATCH", url, .obj (body0 ++ [("state", .str s)])⟩ output_models,
          [⟨"PATCH", url, .obj (body0 ++ [("state", .str s)])⟩])
      else (.error (.valueError "`state` must be 'open' or 'closed'"), [])
    | none =>
      (releaseReportRequest server ⟨"PATCH", url, .obj body0⟩ output_models,
        [⟨"PATCH", url, .obj body0⟩])

/-- The raw response of the C7 projection scenario. -/
def rawAddRemove : Json :=
  .obj [("added", .arr [.obj [("repo_id", .num 1), ("issue_number", .num 2)]]),
        ("removed", .arr [])]

end Zenhub

namespace Zenhub

lemma isEmptyDict_iff (j : Json) : j.isEmptyDict = true ↔ j = .obj [] := by
  cases j with
  | obj kvs => cases kvs <;> simp [Json.isEmptyDict]
  | _ => simp [Json.isEmptyDict]

/-- C5: for every status in {200, 204} and every body — decodable or not —
the classifier never raises: it returns the decoded body unchanged when
decoding succeeded, and the empty structure `{}` when the body was empty or
failed to decode. -/
theorem parse_response_contents_success (status : Nat) (body : Option Json)
    (h : status = 200 ∨ status = 204) :
    parse_response_contents status body = .ok (body.getD (Json.obj [])) := by
  simp [parse_response_contents, h]

theorem parse_response_contents_success_witness :
    (200 = 200 ∨ 200 = 204) ∧
      parse_response_contents 200 none = .ok (Json.obj []) ∧
      parse_response_contents 200 (some (.str "x")) = .ok (.str "x") :=
  ⟨Or.inl rfl,
    parse_response_contents_success 200 none (Or.inl rfl),
    parse_response_contents_success 200 (some (.str "x")) (Or.inl rfl)⟩

/-- C1 counterexample: at status 500 with a body that decodes to the JSON
array `[]`, the classifier does not raise the generic `ZenhubError` with
the fallback message demanded by the claim; the lookup
`contents.get("message", ...)` on a non-dict raises `AttributeError`, which
is outside the `ZenhubError` taxonomy. -/
theorem parse_response_contents_nondict_counterexample :
    parse_response_contents 500 (some (Json.arr [])) =
        .error (.attributeError "object has no attribute get") ∧
      (PyError.attributeError "object has no attribute get").isZenhubError
        = false :=
  ⟨rfl, rfl⟩

/-- C1 (amended): for every response, status 401 maps to
`InvalidTokenError`, 403 to `APILimitError`, 404 to `NotFoundError` — all
members of the `ZenhubError` taxonomy — and any other non-{200, 204}
status maps to the generic `ZenhubError` carrying the decoded body's
`message` field when the contents are a JSON object (with a fixed fallback
string when the field is absent or the body failed to decode); when such a
body decodes to a non-object JSON value the code instead raises
`AttributeError`. -/
theorem parse_response_contents_errors (status : Nat) (body : Option Json)
    (h : ¬(status = 200 ∨ status = 204)) :
    (status = 401 →
      parse_response_contents status body =
        .error (.invalidToken "Invalid token!") ∧
      (PyError.invalidToken "Invalid token!").isZenhubError = true) ∧
    (status = 403 →
      parse_response_contents status body =
        .error (.apiLimit "Reached request limit to the API. See API Limits.") ∧
      (PyError.apiLimit "Reached request limit to the API. See API Limits.").isZenhubError = true) ∧
    (status = 404 →
      parse_response_contents status body =
        .error (.notFound "Not found!") ∧
      (PyError.notFound "Not found!").isZenhubError = true) ∧
    (status ≠ 401 → status ≠ 403 → status ≠ 404 →
      (body = none →
        parse_response_contents status body =
          .error (.zenhub (.str "Unknown error!")) ∧
        (PyError.zenhub (.str "Unknown error!")).isZenhubError = true) ∧
      (∀ kvs, body = some (.obj kvs) →
        parse_response_contents status body =
          .error (.zenhub ((Json.lookup kvs "message").getD
            (.str "Unknown error!"))))) := by
  refine ⟨?_, ?_, ?_, ?_⟩
  · rintro rfl
    exact ⟨by simp [parse_response_contents], rfl⟩
  · rintro rfl
    exact ⟨by simp [parse_response_contents], rfl⟩
  · rintro rfl
    exact ⟨by simp [parse_response_contents], rfl⟩
  · intro h1 h3 h4
    constructor
    · rintro rfl
      refine ⟨?_, rfl⟩
      simp [parse_response_contents, h, h1, h3, h4, Json.lookup]
    · rintro kvs rfl
      simp [parse_response_contents, h, h1, h3, h4]

theorem parse_response_contents_errors_witness :
    parse_response_contents 500
        (some (.obj [("message", .str "Validation failed")])) =
      .error (.zenhub (.str "Validation failed")) := by
  have h := (parse_response_contents_errors 500
      (some (.obj [("message", .str "Validation failed")]))
      (by simp)).2.2.2 (by simp) (by simp) (by simp)
  have h2 := h.2 [("message", .str "Validation failed")] rfl
  simpa [Json.lookup] using h2

/-- C2 counterexample: with the reset-time header present and numeric
(`"10"`) but the server `Date` header missing, the claim demands
`reset = -1` with no error; the code instead enters the date computation
(the parsed reset time differs from `-1`) and `strptime` raises
`TypeError` on the integer default `-1`. -/
theorem rate_limit_missing_date_counterexample :
    rate_limit ⟨none, none, some "10", none⟩ =
      .error (.typeError "strptime() argument must be str") := rfl

lemma rate_limit_ok_fields (h : RateHeaders) (r : RateLimit)
    (hok : rate_limit h = .ok r) :
    r.used = headerInt h.used ∧ r.limit = headerInt h.limit := by
  simp only [rate_limit] at hok
  split at hok
  · split at hok
    · exact absurd hok (by simp)
    · split at hok
      · exact absurd hok (by simp)
      · split at hok
        · exact absurd hok (by simp)
        · cases hok
          exact ⟨rfl, rfl⟩
  · cases hok
    exact ⟨rfl, rfl⟩

/-- C2 (amended): the used and limit counts are parsed independently and a
missing or non-numeric header yields `-1` in the corresponding field of
any returned snapshot, without raising; the reset field is `-1` — again
without raising — when the parsed reset time is `-1` (in particular when
that header is missing or non-numeric) and the `Date` header is also
absent; but when the `Date` header is absent while the parsed reset time
differs from `-1`, the computation raises an error
(`TypeError` from `strptime`, or `ValueError` from `fromtimestamp`)
instead of reporting `-1`. -/
theorem rate_limit_missing_headers (h : RateHeaders) :
    (∀ r, rate_limit h = .ok r →
      ((h.used = none ∨ ∃ s, h.used = some s ∧ pyIntOfString s = none) →
        r.used = -1) ∧
      ((h.limit = none ∨ ∃ s, h.limit = some s ∧ pyIntOfString s = none) →
        r.limit = -1)) ∧
    (headerInt h.reset = -1 → h.date = none →
      rate_limit h = .ok ⟨headerInt h.limit, headerInt h.used, -1⟩) ∧
    (h.date = none → headerInt h.reset ≠ -1 →
      ∃ e, rate_limit h = .error e) := by
  refine ⟨?_, ?_, ?_⟩
  · intro r hok
    obtain ⟨hu, hl⟩ := rate_limit_ok_fields h r hok
    constructor
    · rintro (hn | ⟨s, hs, hps⟩)
      · rw [hu, hn]; rfl
      · rw [hu, hs]; simp [headerInt, hps]
    · rintro (hn | ⟨s, hs, hps⟩)
      · rw [hl, hn]; rfl
      · rw [hl, hs]; simp [headerInt, hps]
  · intro hr hd
    simp [rate_limit, hr, hd]
  · intro hd hr
    simp only [rate_limit, hd, Option.isSome_none, Bool.false_eq_true,
      or_false]
    rw [if_pos hr]
    rcases hf : fromtimestampUtc (headerInt h.reset) with e | v
    · exact ⟨e, rfl⟩
    · exact ⟨_, rfl⟩

theorem rate_limit_missing_headers_witness :
    rate_limit ⟨none, some "abc", none, none⟩ = .ok ⟨-1, -1, -1⟩ := by
  have h := (rate_limit_missing_headers ⟨none, some "abc", none, none⟩).2.1
    rfl rfl
  simpa using h

/-- C3: when both date-bearing headers parse (the reset header to an
in-range Unix timestamp `r`, the `Date` header to epoch second `m`), the
reset field is the `seconds` component of the timedelta `r - m`: if the
reset instant precedes the server instant by `k` whole seconds
(`0 < k < 86400`) the result is the large positive value `86400 - k`
rather than `-k`, and if it is at or after the server instant by less than
one day the result is the plain non-negative difference `r - m`. -/
theorem rate_limit_seconds_quirk (h : RateHeaders) (rs ds : String)
    (r m : Int) (hr : h.reset = some rs) (hpr : pyIntOfString rs = some r)
    (hrange : -62135596800 ≤ r ∧ r ≤ 253402300799)
    (hd : h.date = some ds) (hm : strptimeServerDate ds = .ok m) :
    (∀ k : Int, 0 < k → k < 86400 → m - r = k →
      rate_limit h = .ok ⟨headerInt h.limit, headerInt h.used, 86400 - k⟩ ∧
        86400 - k ≠ -k) ∧
    (0 ≤ r - m → r - m < 86400 →
      rate_limit h = .ok ⟨headerInt h.limit, headerInt h.used, r - m⟩) := by
  have hri : headerInt h.reset = r := by simp [headerInt, hr, hpr]
  have hbase : rate_limit h =
      .ok ⟨headerInt h.limit, headerInt h.used, (r - m) % 86400⟩ := by
    unfold rate_limit
    rw [hri, hd]
    simp only [Option.isSome_some, or_true, if_true]
    rw [show fromtimestampUtc r = .ok r by simp [fromtimestampUtc, hrange]]
    rw [hm]
  constructor
  · intro k hk0 hk1 hkm
    refine ⟨?_, by omega⟩
    rw [hbase]
    congr 1
    have : (r - m) % 86400 = 86400 - k := by omega
    rw [this]
  · intro h0 h1
    rw [hbase]
    congr 1
    have : (r - m) % 86400 = r - m := by omega
    rw [this]

theorem rate_limit_seconds_quirk_witness :
    rate_limit ⟨some "3", some "100", some "1653950717",
        some "Mon, 30 May 2022 22:43:37 GMT"⟩ = .ok ⟨100, 3, 100⟩ ∧
      rate_limit ⟨some "3", some "100", some "1653950517",
        some "Mon, 30 May 2022 22:43:37 GMT"⟩ = .ok ⟨100, 3, 86300⟩ := by
  constructor
  · have h := (rate_limit_seconds_quirk
      ⟨some "3", some "100", some "1653950717",
        some "Mon, 30 May 2022 22:43:37 GMT"⟩
      "1653950717" "Mon, 30 May 2022 22:43:37 GMT"
      1653950717 1653950617 rfl rfl (by decide) rfl rfl).2
      (by decide) (by decide)
    exact h
  · have h := ((rate_limit_seconds_quirk
      ⟨some "3", some "100", some "1653950517",
        some "Mon, 30 May 2022 22:43:37 GMT"⟩
      "1653950517" "Mon, 30 May 2022 22:43:37 GMT"
      1653950517 1653950617 rfl rfl (by decide) rfl rfl).1
      100 (by decide) (by decide) (by decide)).1
    exact h

lemma digitVal_digitChar (n : Nat) : digitVal (digitChar n) = some (n % 10) := by
  have key : ∀ m, m < 10 → digitVal (Char.ofNat (48 + m)) = some m := by decide
  simpa [digitChar] using key _ (Nat.mod_lt _ (by norm_num))

lemma digitChar_isDigit (n : Nat) : (digitChar n).isDigit = true := by
  have key : ∀ m, m < 10 → (Char.ofNat (48 + m)).isDigit = true := by decide
  simpa [digitChar] using key _ (Nat.mod_lt _ (by norm_num))

lemma parse2c_pad (n : Nat) (h : n ≤ 99) :
    parse2c (digitChar (n / 10)) (digitChar n) = some n := by
  simp only [parse2c, digitVal_digitChar]
  simp only [Option.bind_eq_bind, Option.some_bind, Option.pure_def,
    Option.some.injEq]
  omega

lemma parse3c_pad (n : Nat) (h : n ≤ 999) :
    parse3c (digitChar (n / 100)) (digitChar (n / 10)) (digitChar n) =
      some n := by
  simp only [parse3c, digitVal_digitChar]
  simp only [Option.bind_eq_bind, Option.some_bind, Option.pure_def,
    Option.some.injEq]
  omega

lemma parse4c_pad (n : Nat) (h : n ≤ 9999) :
    parse4c (digitChar (n / 1000)) (digitChar (n / 100)) (digitChar (n / 10))
      (digitChar n) = some n := by
  simp only [parse4c, digitVal_digitChar]
  simp only [Option.bind_eq_bind, Option.some_bind, Option.pure_def,
    Option.some.injEq]
  omega

lemma parseTzOffset_offsetChars (o : Option Int)
    (h : ∀ off, o = some off → -1439 ≤ off ∧ off ≤ 1439) :
    parseTzOffset (offsetChars o) = some o := by
  cases o with
  | none => rfl
  | some off =>
    obtain ⟨hlo, hhi⟩ := h off rfl
    have h1 : off.natAbs / 60 ≤ 23 := by omega
    have h2 : off.natAbs % 60 ≤ 59 := by omega
    by_cases hneg : off < 0
    · simp only [offsetChars, if_pos hneg, pad2, List.cons_append,
        List.nil_append, parseTzOffset,
        parse2c_pad (off.natAbs / 60) (by omega),
        parse2c_pad (off.natAbs % 60) (by omega),
        Option.bind_eq_bind, Option.some_bind, h1, h2,
        and_self, and_true, true_and, or_true, true_or, or_self,
        if_true, if_false, ite_true, ite_false, Option.some.injEq,
        (by decide : (('+' : Char) = '-') = False),
        (by decide : (('-' : Char) = '-') = True)]
      omega
    · simp only [offsetChars, if_neg hneg, pad2, List.cons_append,
        List.nil_append, parseTzOffset,
        parse2c_pad (off.natAbs / 60) (by omega),
        parse2c_pad (off.natAbs % 60) (by omega),
        Option.bind_eq_bind, Option.some_bind, h1, h2,
        and_self, and_true, true_and, or_true, true_or, or_self,
        if_true, if_false, ite_true, ite_false, Option.some.injEq,
        (by decide : (('+' : Char) = '-') = False),
        (by decide : (('-' : Char) = '-') = True)]
      omega

lemma daysInMonth_le (y mo : Nat) : daysInMonth y mo ≤ 31 := by
  unfold daysInMonth
  split
  all_goals first
  | omega
  | (split <;> omega)

lemma fromisoChars_isoChars (t : PyDatetime)
    (hy1 : 1 ≤ t.year) (hy2 : t.year ≤ 9999)
    (hmo1 : 1 ≤ t.month) (hmo2 : t.month ≤ 12)
    (hd1 : 1 ≤ t.day) (hd2 : t.day ≤ daysInMonth t.year t.month)
    (hh : t.hour ≤ 23) (hmi : t.minute ≤ 59) (hs : t.second ≤ 59)
    (hus : t.microsecond ≤ 999999)
    (hoff : ∀ off, t.tzoffset = some off → -1439 ≤ off ∧ off ≤ 1439)
    (h1000 : t.microsecond % 1000 = 0) :
    fromisoChars (isoChars t) = some t := by
  have hd31 : t.day ≤ 31 := le_trans hd2 (daysInMonth_le _ _)
  simp only [isoChars, pad4, pad2, pad3, List.cons_append, List.nil_append,
    fromisoChars,
    parse4c_pad t.year (by omega),
    parse2c_pad t.month (by omega),
    parse2c_pad t.day (by omega),
    parse2c_pad t.hour (by omega),
    parse2c_pad t.minute (by omega),
    parse2c_pad t.second (by omega),
    parse3c_pad (t.microsecond / 1000) (by omega),
    parseTzOffset_offsetChars t.tzoffset hoff,
    Option.bind_eq_bind, Option.some_bind,
    and_self, and_true, true_and, if_true, ite_true, ite_false,
    (by decide : (('-' : Char) = '-') = True),
    (by decide : ((':' : Char) = ':') = True),
    (by decide : (('.' : Char) = '.') = True)]
  rw [if_pos ⟨hy1, hmo1, hmo2, hd1, hd2, hh, hmi, hs⟩]
  have hms : t.microsecond / 1000 * 1000 = t.microsecond := by omega
  rw [hms]

lemma compareLex_self (l : List Nat) : compareLex l l = .eq := by
  induction l with
  | nil => rfl
  | cons a as ih => simp [compareLex, ih]

lemma pyCompare_self (t : PyDatetime) : pyCompare t t = .ok .eq := by
  cases h : t.tzoffset <;>
    simp [pyCompare, h, compareLex_self, compare_eq_iff_eq]

/-- C4: for every valid timestamp, the encoded string ends in the literal
character `Z` and matches the spec's ISO-8601 shape with exactly
millisecond precision, regardless of the timestamp's precision or
timezone; and when the timestamp has no sub-millisecond component,
decoding the encoded string reproduces it exactly. -/
theorem date_to_string_round_trip (t : PyDatetime) (hv : t.valid) :
    (date_to_string t).data.getLast? = some 'Z' ∧
      specIso8601MsZ (date_to_string t).data = true ∧
      (t.microsecond % 1000 = 0 →
        string_to_date (date_to_string t) = .ok t) := by
  obtain ⟨hy1, hy2, hmo1, hmo2, hd1, hd2, hh, hmi, hs, hus, hoff⟩ := hv
  have hdata : (date_to_string t).data = isoChars t ++ ['Z'] := rfl
  refine ⟨?_, ?_, ?_⟩
  · rw [hdata, List.getLast?_concat]
  · rw [hdata]
    rcases hoz : t.tzoffset with - | off
    · simp [specIso8601MsZ, isoChars, pad4, pad2, pad3, offsetChars, hoz,
        specOffsetZ, digitChar_isDigit]
    · by_cases hneg : off < 0 <;>
        simp [specIso8601MsZ, isoChars, pad4, pad2, pad3, offsetChars, hoz,
          hneg, specOffsetZ, digitChar_isDigit]
  · intro h1000
    have hiso := fromisoChars_isoChars t hy1 hy2 hmo1 hmo2 hd1 hd2 hh hmi hs
      hus hoff h1000
    simp only [string_to_date, hdata, List.getLast?_concat,
      List.dropLast_concat, eq_self_iff_true, if_true, ite_true, hiso]

theorem date_to_string_round_trip_witness :
    (⟨2022, 5, 30, 22, 43, 37, 123000, some (-330)⟩ : PyDatetime).valid ∧
      (date_to_string ⟨2022, 5, 30, 22, 43, 37, 123000, some (-330)⟩
        ).data.getLast? = some 'Z' ∧
      specIso8601MsZ (date_to_string
        ⟨2022, 5, 30, 22, 43, 37, 123000, some (-330)⟩).data = true ∧
      string_to_date (date_to_string
          ⟨2022, 5, 30, 22, 43, 37, 123000, some (-330)⟩) =
        .ok ⟨2022, 5, 30, 22, 43, 37, 123000, some (-330)⟩ := by
  have hv : (⟨2022, 5, 30, 22, 43, 37, 123000, some (-330)⟩ :
      PyDatetime).valid := by
    refine ⟨by norm_num, by norm_num, by norm_num, by norm_num, by norm_num,
      by norm_num [daysInMonth, isLeap], by norm_num, by norm_num,
      by norm_num, by norm_num, ?_⟩
    intro off hoff
    cases hoff
    norm_num
  have h := date_to_string_round_trip
    ⟨2022, 5, 30, 22, 43, 37, 123000, some (-330)⟩ hv
  exact ⟨hv, h.1, h.2.1, h.2.2 (by norm_num)⟩

/-- C8: whenever the two dates are comparable (`pyCompare` succeeds, i.e.
they are both naive or both aware), `check_dates` returns `True` exactly
when `start ≤ end` and raises `ValueError` exactly when `start > end`;
the boundary `start == end` always succeeds. -/
theorem check_dates_spec (s e : PyDatetime) :
    (∀ o, pyCompare s e = .ok o →
      (o ≠ .gt → check_dates s e = .ok true) ∧
      (o = .gt → check_dates s e =
        .error (.valueError "Start date must be before end date."))) ∧
    check_dates s s = .ok true := by
  constructor
  · intro o ho
    constructor
    · intro hne
      simp [check_dates, ho, hne]
    · rintro rfl
      simp [check_dates, ho]
  · simp [check_dates, pyCompare_self]

theorem check_dates_spec_witness :
    check_dates ⟨2020, 1, 1, 0, 0, 0, 0, none⟩
        ⟨2020, 1, 2, 0, 0, 0, 0, none⟩ = .ok true ∧
      check_dates ⟨2020, 1, 2, 0, 0, 0, 0, none⟩
        ⟨2020, 1, 1, 0, 0, 0, 0, none⟩ =
        .error (.valueError "Start date must be before end date.") := by
  constructor
  · exact ((check_dates_spec ⟨2020, 1, 1, 0, 0, 0, 0, none⟩
      ⟨2020, 1, 2, 0, 0, 0, 0, none⟩).1 .lt rfl).1 (by decide)
  · exact ((check_dates_spec ⟨2020, 1, 2, 0, 0, 0, 0, none⟩
      ⟨2020, 1, 1, 0, 0, 0, 0, none⟩).1 .gt rfl).2 rfl

/-- C9: a dependency payload lacking the required `blocked` key fails
validation with a `ValidationError` that is outside the `ZenhubError`
transport taxonomy, while a payload with well-formed `blocking` and
`blocked` issue references (integer `repo_id` and `issue_number`)
validates successfully. -/
theorem dependency_validation (kvs : List (String × Json)) :
    (Json.lookup kvs "blocked" = none →
      ∃ m, Dependency.parse_obj (.obj kvs) = .error (.validationError m) ∧
        (PyError.validationError m).isZenhubError = false) ∧
    (∀ br bn kr kn : Int,
      Dependency.parse_obj (.obj
        [("blocking", .obj [("repo_id", .num br), ("issue_number", .num bn)]),
         ("blocked", .obj [("repo_id", .num kr),
           ("issue_number", .num kn)])]) =
        .ok ⟨⟨br, bn⟩, ⟨kr, kn⟩⟩) := by
  constructor
  · intro hb
    simp only [Dependency.parse_obj]
    rcases hbg : requiredField kvs "blocking" Issue.parse with e | bg
    · exact ⟨e, rfl, rfl⟩
    · have h2 : requiredField kvs "blocked" Issue.parse =
          .error ("blocked" ++ ": field required") := by
        simp [requiredField, hb]
      refine ⟨"blocked" ++ ": field required", ?_, rfl⟩
      rw [h2]
      rfl
  · intro br bn kr kn
    rfl

theorem dependency_validation_witness :
    (∃ m, Dependency.parse_obj (.obj []) = .error (.validationError m) ∧
      (PyError.validationError m).isZenhubError = false) ∧
    Dependency.parse_obj (.obj
      [("blocking", .obj [("repo_id", .num 1), ("issue_number", .num 2)]),
       ("blocked", .obj [("repo_id", .num 3), ("issue_number", .num 4)])]) =
      .ok ⟨⟨1, 2⟩, ⟨3, 4⟩⟩ :=
  ⟨(dependency_validation []).1 rfl, (dependency_validation []).2 1 2 3 4⟩

/-- C7: the echo-only-requested-fields projection keeps only keys among
the requested ones (those present in the raw input) and is a sublist of
the full record — it introduces no extra keys; in particular, in
dict-output mode the raw response of the add-or-remove scenario is
returned verbatim. -/
theorem add_or_remove_projection (pairs : List (String × Json))
    (keys : List String) :
    (∀ kv ∈ pydanticDictInclude pairs keys, kv.1 ∈ keys) ∧
      List.Sublist (pydanticDictInclude pairs keys) pairs ∧
      add_or_remove_issues_from_release_report
        (fun _ => (200, some rawAddRemove)) "rid" [] [] false =
        .ok (.inr rawAddRemove) := by
  refine ⟨?_, List.filter_sublist _, ?_⟩
  · intro kv hkv
    have h := List.mem_filter.mp hkv
    simpa using h.2
  · rfl

/-- C6: with comparable dates, `start_date > desired_end_date` makes both
`create_release_report` and `edit_release_report` raise `ValueError` with
an empty trace of HTTP calls; and an `edit_release_report` call whose
`state` is neither `open` nor `closed` (and not `None`) likewise raises
`ValueError` before any HTTP call is issued. -/
theorem precondition_fail_fast (server : Server) (repo_id : Int)
    (title : String) (sd ed : PyDatetime) (descr : String)
    (repos : List Int) (release_id : String) (state : Option String)
    (om : Bool) :
    (pyCompare sd ed = .ok .gt →
      create_release_report server repo_id title sd ed descr repos om =
        (.error (.valueError "Start date must be before end date."), []) ∧
      edit_release_report server release_id title sd ed descr state om =
        (.error (.valueError "Start date must be before end date."), [])) ∧
    (∀ o s, pyCompare sd ed = .ok o → state = some s → s ≠ "open" →
      s ≠ "closed" →
      ∃ m, edit_release_report server release_id title sd ed descr state om =
        (.error (.valueError m), [])) := by
  constructor
  · intro hgt
    have hcd : check_dates sd ed =
        .error (.valueError "Start date must be before end date.") := by
      simp [check_dates, hgt]
    constructor
    · simp [create_release_report, hcd]
    · simp [edit_release_report, hcd]
  · intro o s ho hstate hs1 hs2
    by_cases hgt : o = .gt
    · subst hgt
      have hcd : check_dates sd ed =
          .error (.valueError "Start date must be before end date.") := by
        simp [check_dates, ho]
      exact ⟨"Start date must be before end date.",
        by simp [edit_release_report, hcd]⟩
    · have hcd : check_dates sd ed = .ok true := by
        simp [check_dates, ho, hgt]
      exact ⟨"`state` must be 'open' or 'closed'",
        by simp [edit_release_report, hcd, hstate, hs1, hs2]⟩

theorem precondition_fail_fast_witness :
    create_release_report (fun _ => (200, none)) 1 "t"
        ⟨2020, 1, 2, 0, 0, 0, 0, none⟩ ⟨2020, 1, 1, 0, 0, 0, 0, none⟩
        "" [] false =
      (.error (.valueError "Start date must be before end date."), []) ∧
    (∃ m, edit_release_report (fun _ => (200, none)) "rid" "t"
        ⟨2020, 1, 1, 0, 0, 0, 0, none⟩ ⟨2020, 1, 2, 0, 0, 0, 0, none⟩
        "" (some "foo") false = (.error (.valueError m), [])) := by
  constructor
  · exact ((precondition_fail_fast (fun _ => (200, none)) 1 "t"
      ⟨2020, 1, 2, 0, 0, 0, 0, none⟩ ⟨2020, 1, 1, 0, 0, 0, 0, none⟩
      "" [] "rid" none false).1 rfl).1
  · exact (precondition_fail_fast (fun _ => (200, none)) 1 "t"
      ⟨2020, 1, 1, 0, 0, 0, 0, none⟩ ⟨2020, 1, 2, 0, 0, 0, 0, none⟩
      "" [] "rid" (some "foo") false).2 .lt "foo" rfl rfl
      (by decide) (by decide)

/-- C10: for each of the three boolean-returning endpoints, a 2xx response
yields `True` exactly when the decoded body is the empty structure `{}`
(an undecodable body also counts as `{}`); a non-empty success body yields
`False` rather than an error; and a non-2xx status propagates the
transport exception raised by the classifier. -/
theorem bool_endpoints_empty_dict (status : Nat) (body : Option Json)
    (a b c d : Int) (rid : String) (rep : Int) :
    let server : Server := fun _ => (status, body)
    ((status = 200 ∨ status = 204) →
      remove_dependency server a b c d =
          .ok ((body.getD (Json.obj [])).isEmptyDict) ∧
      add_repo_to_release_report server rid rep =
          .ok ((body.getD (Json.obj [])).isEmptyDict) ∧
      remove_repo_from_release_report server rid rep =
          .ok ((body.getD (Json.obj [])).isEmptyDict) ∧
      (remove_dependency server a b c d = .ok true ↔
        body.getD (Json.obj []) = .obj [])) ∧
    (¬(status = 200 ∨ status = 204) →
      ∃ e : PyError, parse_response_contents status body = .error e ∧
        remove_dependency server a b c d = .error e ∧
        add_repo_to_release_report server rid rep = .error e ∧
        remove_repo_from_release_report server rid rep = .error e) := by
  intro server
  constructor
  · intro h
    have hp := parse_response_contents_success status body h
    refine ⟨?_, ?_, ?_, ?_⟩
    · simp [remove_dependency, httpRequest, server, hp]
    · simp [add_repo_to_release_report, httpRequest, server, hp]
    · simp [remove_repo_from_release_report, httpRequest, server, hp]
    · rw [show remove_dependency server a b c d =
          .ok ((body.getD (Json.obj [])).isEmptyDict) by
        simp [remove_dependency, httpRequest, server, hp]]
      constructor
      · intro he
        have : (body.getD (Json.obj [])).isEmptyDict = true := by
          simpa using he
        exact (isEmptyDict_iff _).mp this
      · intro he
        simp [he, Json.isEmptyDict]
  · intro h
    obtain ⟨e, he⟩ : ∃ e, parse_response_contents status body = .error e := by
      unfold parse_response_contents
      simp only [h, if_false]
      split
      · exact ⟨_, rfl⟩
      · split
        · exact ⟨_, rfl⟩
        · split
          · exact ⟨_, rfl⟩
          · split <;> exact ⟨_, rfl⟩
    refine ⟨e, he, ?_, ?_, ?_⟩
    · simp [remove_dependency, httpRequest, server, he]
    · simp [add_repo_to_release_report, httpRequest, server, he]
    · simp [remove_repo_from_release_report, httpRequest, server, he]

theorem bool_endpoints_empty_dict_witness :
    remove_dependency (fun _ => (200, some (Json.obj []))) 1 2 3 4 =
        .ok true ∧
      add_repo_to_release_report
        (fun _ => (200, some (Json.obj [("x", .num 1)]))) "r" 5 =
        .ok false ∧
      remove_repo_from_release_report (fun _ => (404, none)) "r" 5 =
        .error (.notFound "Not found!") := by
  refine ⟨?_, ?_, ?_⟩
  · have h := (bool_endpoints_empty_dict 200 (some (Json.obj [])) 1 2 3 4
      "r" 5).1 (Or.inl rfl)
    simpa [Json.isEmptyDict] using h.1
  · have h := (bool_endpoints_empty_dict 200 (some (Json.obj [("x", .num 1)]))
      1 2 3 4 "r" 5).1 (Or.inl rfl)
    simpa [Json.isEmptyDict] using h.2.1
  · have h := (bool_endpoints_empty_dict 404 none 1 2 3 4 "r" 5).2 (by simp)
    obtain ⟨e, he, -, -, hr⟩ := h
    have : e = .notFound "Not found!" := by
      have := he.symm.trans (rfl :
        parse_response_contents 404 none =
          .error (.notFound "Not found!"))
      exact (Except.error.inj this)
    rw [← this]
    exact hr

end Zenhub

